import Mathlib

/-!
Verification of the QuizCraft scoring and aggregation core.

The definitions below are a shallow embedding of the quiz-submission
scoring routine (server/controllers/resultController.js, submitQuiz),
the quiz statistics recomputation (server/models/Result.js,
getQuizStats), the incremental aggregate update performed after each
submission, and the question write-time validation hook
(questionSchema pre-validate).  JavaScript numbers are modelled as
Nat/Int (all quantities involved are small integers, on which
double-precision arithmetic is exact), and Math.round of a
non-negative quotient num/den is modelled as the natural division
(2*num + den) / (2*den), i.e. round-half-up.
-/

namespace QuizApp

/-- One option of a multiple-choice question: display text plus the
correctness flag (questionSchema.options entries). -/
structure QOption where
  text : String
  isCorrect : Bool
deriving Repr, DecidableEq

/-- A question as the scoring code sees it after populate: its id, its
option list and its point value (questionSchema). -/
structure Question where
  id : Nat
  options : List QOption
  points : Nat
deriving Repr, DecidableEq

/-- Effective point value of a question: the code reads q.points with a
fallback of 1 for a missing or zero value (the expression q.points
with the or-else 1 default in submitQuiz). -/
def jsPoints (q : Question) : Nat :=
  if q.points = 0 then 1 else q.points

/-- One element of the submitted answers array: a question identifier
and the selected option index, which the API allows to be -1 for an
explicitly skipped question. -/
structure AnswerEntry where
  questionId : Nat
  selectedOption : Int
deriving Repr, DecidableEq

/-- The lookup table built in submitQuiz: questionMap.set is called for
each quiz question in order, so a later question with the same id
overwrites an earlier one; lookup therefore returns the last question
of the quiz whose id matches. -/
def questionMap (questions : List Question) (qid : Nat) : Option Question :=
  (questions.filter (fun q => q.id == qid)).getLast?

/-- The correctness test of submitQuiz: the selected index must satisfy
0 <= selectedOption < options.length, and the option at that index
must be flagged correct. -/
def optionHit (q : Question) (sel : Int) : Bool :=
  if 0 ≤ sel ∧ sel < (q.options.length : Int) then
    match q.options.get? sel.toNat with
    | some o => o.isCorrect
    | none => false
  else
    false

/-- One entry of the per-question breakdown stored on the Result
(resultAnswers.push in submitQuiz). -/
structure ResultAnswer where
  question : Nat
  selectedOption : Int
  isCorrect : Bool
  pointsEarned : Nat
deriving Repr, DecidableEq

/-- The mutable state of the scoring loop of submitQuiz: the running
counters correctAnswers and scorePoints and the breakdown list. -/
structure ScoreAcc where
  correctAnswers : Nat
  scorePoints : Nat
  resultAnswers : List ResultAnswer
deriving Repr, DecidableEq

/-- One iteration of the answers.forEach loop of submitQuiz: an entry
whose questionId is not in the map is skipped entirely; otherwise the
correctness test runs, the counters are bumped on a hit, and a
breakdown entry is appended unconditionally. -/
def processAnswer (questions : List Question) (acc : ScoreAcc) (a : AnswerEntry) : ScoreAcc :=
  match questionMap questions a.questionId with
  | none => acc
  | some q =>
    let hit := optionHit q a.selectedOption
    let pts := if hit then jsPoints q else 0
    { correctAnswers := acc.correctAnswers + (if hit then 1 else 0),
      scorePoints := acc.scorePoints + pts,
      resultAnswers := acc.resultAnswers ++
        [{ question := q.id, selectedOption := a.selectedOption,
           isCorrect := hit, pointsEarned := pts }] }

/-- Math.round of the non-negative quotient num/den (den positive),
written with natural division: round-half-up. -/
def jsRoundDiv (num den : Nat) : Nat :=
  (2 * num + den) / (2 * den)

/-- The fields submitQuiz computes for the Result record. incorrectAnswers
and unanswered are carried as integers because the code computes them by
subtraction on array lengths, which can go negative. -/
structure ScoreReport where
  score : Nat
  totalQuestions : Nat
  correctAnswers : Nat
  incorrectAnswers : Int
  unanswered : Int
  totalPoints : Nat
  percentage : Nat
  answers : List ResultAnswer
deriving Repr, DecidableEq

/-- The score calculation of submitQuiz (steps 3 of the controller):
totalPoints sums the questions' effective points, the answers array is
folded through the forEach loop, and then incorrectAnswers =
answers.length - correctAnswers, unanswered = questions.length -
answers.length, percentage = Math.round(100 * score / totalPoints)
with 0 when totalPoints is 0. -/
def scoreSubmission (questions : List Question) (answers : List AnswerEntry) : ScoreReport :=
  let totalPoints := (questions.map jsPoints).sum
  let acc := answers.foldl (processAnswer questions) ⟨0, 0, []⟩
  { score := acc.scorePoints,
    totalQuestions := questions.length,
    correctAnswers := acc.correctAnswers,
    incorrectAnswers := (answers.length : Int) - (acc.correctAnswers : Int),
    unanswered := (questions.length : Int) - (answers.length : Int),
    totalPoints := totalPoints,
    percentage := if 0 < totalPoints then jsRoundDiv (100 * acc.scorePoints) totalPoints else 0,
    answers := acc.resultAnswers }

/-- The submission endpoint after quiz lookup: a quiz whose question
list is empty is rejected with the user-visible message before any
scoring happens or any Result is built (the early return at the top of
submitQuiz); otherwise the score report is produced. -/
def submitQuiz (questions : List Question) (answers : List AnswerEntry) :
    Except String ScoreReport :=
  if questions.length = 0 then Except.error "Quiz has no questions"
  else Except.ok (scoreSubmission questions answers)

/-- The incremental quiz-statistics update of submitQuiz (step 6): the
attempt count is incremented and the stored average is replaced by
Math.round of the weighted mean of the old average and the new
percentage. -/
def updateAggregates (priorAttemptCount priorAverage newPercentage : Nat) : Nat × Nat :=
  let newAttemptCount := priorAttemptCount + 1
  (newAttemptCount,
    jsRoundDiv (priorAverage * priorAttemptCount + newPercentage) newAttemptCount)

/-- Rounding as the specification describes it: round-half-up to the
nearest integer, on exact rationals. -/
def specRound (x : ℚ) : ℤ :=
  ⌊x + 1 / 2⌋

/-- The fields of a stored Result that getQuizStats reads. -/
structure StoredResult where
  percentage : Nat
  timeTaken : Nat
deriving Repr, DecidableEq

/-- The statistics object returned by getQuizStats. -/
structure QuizStats where
  attemptCount : Nat
  averageScore : Nat
  highestScore : Nat
  lowestScore : Nat
  averageTime : Nat
  passRate : Nat
deriving Repr, DecidableEq

/-- The full-recompute statistics of Result.getQuizStats: all zeros for
an empty result list, otherwise attempt count, rounded mean percentage,
extremes, rounded mean time, and the pass rate computed against the
fixed literal threshold 60 that appears in the code. -/
def getQuizStats (results : List StoredResult) : QuizStats :=
  if results.length = 0 then ⟨0, 0, 0, 0, 0, 0⟩
  else
    let percentages := results.map (fun r => r.percentage)
    let times := results.map (fun r => r.timeTaken)
    let passed := (results.filter (fun r => 60 ≤ r.percentage)).length
    { attemptCount := results.length,
      averageScore := jsRoundDiv percentages.sum results.length,
      highestScore := percentages.max?.getD 0,
      lowestScore := percentages.min?.getD 0,
      averageTime := jsRoundDiv times.sum results.length,
      passRate := jsRoundDiv (100 * passed) results.length }

/-- Modelled from the spec: the passing threshold is 60 unless the quiz
specifies its own pass percentage, in which case that value is the
threshold. -/
def specPassThreshold (quizPassPercentage : Option Nat) : Nat :=
  quizPassPercentage.getD 60

/-- Modelled from the spec: passRate is the (rounded) percentage of
attempts whose percentage is at least the given threshold. -/
def specPassRate (threshold : Nat) (percentages : List Nat) : Nat :=
  jsRoundDiv (100 * (percentages.filter (fun p => threshold ≤ p)).length) percentages.length

/-- The write-time validation hook of questionSchema: a question is
invalidated when its option list does not have exactly four entries,
and otherwise when the number of options flagged correct differs from
one; it passes validation exactly when neither invalidation fires. -/
def questionPreValidate (options : List QOption) : Bool :=
  if options.length ≠ 4 then false
  else (options.filter (fun o => o.isCorrect)).length == 1

/-- Whether a submitted entry hits the correct option of the quiz
question it references (false when the question is foreign). -/
def entryHit (questions : List Question) (a : AnswerEntry) : Bool :=
  match questionMap questions a.questionId with
  | none => false
  | some q => optionHit q a.selectedOption

/-- Points a single submitted entry earns on its own. -/
def entryPoints (questions : List Question) (a : AnswerEntry) : Nat :=
  match questionMap questions a.questionId with
  | none => 0
  | some q => if optionHit q a.selectedOption then jsPoints q else 0

/-- The breakdown entry a single submitted entry produces, or none when
its question identifier is foreign to the quiz. -/
def entryFor (questions : List Question) (a : AnswerEntry) : Option ResultAnswer :=
  match questionMap questions a.questionId with
  | none => none
  | some q =>
    some { question := q.id, selectedOption := a.selectedOption,
           isCorrect := optionHit q a.selectedOption,
           pointsEarned := if optionHit q a.selectedOption then jsPoints q else 0 }

theorem questionMap_eq_some {questions : List Question} {qid : Nat} {q : Question}
    (h : questionMap questions qid = some q) : q ∈ questions ∧ q.id = qid := by
  unfold questionMap at h
  have hmem : q ∈ questions.filter (fun q => q.id == qid) := by
    obtain ⟨hne, hq⟩ := List.mem_getLast?_eq_getLast (l := questions.filter (fun q => q.id == qid))
      (x := q) h
    rw [hq]
    exact List.getLast_mem hne
  rw [List.mem_filter] at hmem
  exact ⟨hmem.1, by simpa using hmem.2⟩

theorem foldl_processAnswer (questions : List Question) (answers : List AnswerEntry)
    (acc : ScoreAcc) :
    answers.foldl (processAnswer questions) acc =
      { correctAnswers := acc.correctAnswers + answers.countP (entryHit questions),
        scorePoints := acc.scorePoints + (answers.map (entryPoints questions)).sum,
        resultAnswers := acc.resultAnswers ++ answers.filterMap (entryFor questions) } := by
  induction answers generalizing acc with
  | nil => simp
  | cons a as ih =>
    rw [List.foldl_cons, ih]
    cases h : questionMap questions a.questionId with
    | none =>
      simp only [processAnswer, entryHit, entryPoints, entryFor, h, List.countP_cons,
        List.map_cons, List.sum_cons, List.filterMap_cons]
      simp
    | some q =>
      simp only [processAnswer, entryHit, entryPoints, entryFor, h, List.countP_cons,
        List.map_cons, List.sum_cons, List.filterMap_cons, ScoreAcc.mk.injEq]
      cases optionHit q a.selectedOption <;> (simp [List.append_assoc]; try omega)

theorem foldl_processAnswer_filter_matched (questions : List Question)
    (answers : List AnswerEntry) (acc : ScoreAcc) :
    answers.foldl (processAnswer questions) acc =
      (answers.filter
        (fun a => (questionMap questions a.questionId).isSome)).foldl
        (processAnswer questions) acc := by
  induction answers generalizing acc with
  | nil => rfl
  | cons a as ih =>
    cases h : questionMap questions a.questionId with
    | none =>
      have hskip : processAnswer questions acc a = acc := by
        unfold processAnswer
        rw [h]
      rw [List.foldl_cons, hskip, List.filter_cons]
      simp only [h, Option.isSome_none]
      exact ih acc
    | some q =>
      have hsome : (questionMap questions a.questionId).isSome = true := by
        rw [h]
        rfl
      rw [List.foldl_cons, List.filter_cons, if_pos hsome, List.foldl_cons]
      exact ih (processAnswer questions acc a)

theorem jsRoundDiv_eq_specRound (num den : Nat) (hden : 0 < den) :
    (jsRoundDiv num den : ℤ) = specRound ((num : ℚ) / (den : ℚ)) := by
  unfold jsRoundDiv specRound
  have hd : (den : ℚ) ≠ 0 := Nat.cast_ne_zero.mpr (by omega)
  have hx : (num : ℚ) / (den : ℚ) + 1 / 2 =
      (((2 * num + den : ℕ) : ℤ) : ℚ) / ((2 * den : ℕ) : ℚ) := by
    push_cast
    field_simp
    ring
  rw [hx, Rat.floor_intCast_div_natCast ((2 * num + den : ℕ) : ℤ) (2 * den)]
  exact_mod_cast Int.natCast_div (2 * num + den) (2 * den)

theorem jsRoundDiv_le_100 {s t : Nat} (hst : s ≤ t) (ht : 0 < t) :
    jsRoundDiv (100 * s) t ≤ 100 := by
  unfold jsRoundDiv
  have h2t : 0 < 2 * t := by omega
  have hlt : 2 * (100 * s) + t < 101 * (2 * t) := by omega
  have := (Nat.div_lt_iff_lt_mul h2t).mpr hlt
  omega

theorem sum_entryPoints_le_matched (questions : List Question) (answers : List AnswerEntry) :
    (answers.map (entryPoints questions)).sum ≤
      ((answers.filterMap (fun a => questionMap questions a.questionId)).map jsPoints).sum := by
  induction answers with
  | nil => simp
  | cons a as ih =>
    cases h : questionMap questions a.questionId with
    | none =>
      simp only [List.map_cons, List.sum_cons, List.filterMap_cons, h, entryPoints]
      simpa using ih
    | some q =>
      simp only [List.map_cons, List.sum_cons, List.filterMap_cons, h, entryPoints]
      have hle : (if optionHit q a.selectedOption then jsPoints q else 0) ≤ jsPoints q := by
        cases optionHit q a.selectedOption <;> simp
      exact Nat.add_le_add hle ih

theorem matched_map_id (questions : List Question) (answers : List AnswerEntry) :
    (answers.filterMap (fun a => questionMap questions a.questionId)).map Question.id =
      (answers.filter (fun a => (questionMap questions a.questionId).isSome)).map
        (fun a => a.questionId) := by
  induction answers with
  | nil => rfl
  | cons a as ih =>
    cases h : questionMap questions a.questionId with
    | none =>
      simp only [List.filterMap_cons, h, List.filter_cons, Option.isSome_none]
      simpa using ih
    | some q =>
      have hid : q.id = a.questionId := (questionMap_eq_some h).2
      simp [List.filterMap_cons, List.filter_cons, h, hid, ih]

theorem matched_sum_le_totalPoints (questions : List Question) (answers : List AnswerEntry)
    (hnodup : (answers.map (fun a => a.questionId)).Nodup) :
    ((answers.filterMap (fun a => questionMap questions a.questionId)).map jsPoints).sum ≤
      (questions.map jsPoints).sum := by
  set matched := answers.filterMap (fun a => questionMap questions a.questionId) with hm
  have hsubset : matched ⊆ questions := by
    intro q hq
    rw [hm, List.mem_filterMap] at hq
    obtain ⟨a, _, ha⟩ := hq
    exact (questionMap_eq_some ha).1
  have hids : (matched.map Question.id).Nodup := by
    rw [hm, matched_map_id]
    exact List.Nodup.sublist (List.Sublist.map _ (List.filter_sublist answers)) hnodup
  have hnd : matched.Nodup := List.Nodup.of_map _ hids
  have hsub : List.Subperm matched questions := hnd.subperm hsubset
  have hmle : ((matched.map jsPoints : List Nat) : Multiset Nat) ≤
      ((questions.map jsPoints : List Nat) : Multiset Nat) := by
    rw [← Multiset.map_coe, ← Multiset.map_coe]
    exact Multiset.map_le_map (Multiset.coe_le.mpr hsub)
  obtain ⟨u, hu⟩ := Multiset.le_iff_exists_add.mp hmle
  have hsum : (questions.map jsPoints).sum = (matched.map jsPoints).sum + u.sum := by
    have := congrArg Multiset.sum hu
    simpa [Multiset.sum_coe, Multiset.sum_add] using this
  omega

theorem scoreSubmission_fields (questions : List Question) (answers : List AnswerEntry) :
    scoreSubmission questions answers =
      { score := (answers.map (entryPoints questions)).sum,
        totalQuestions := questions.length,
        correctAnswers := answers.countP (entryHit questions),
        incorrectAnswers := (answers.length : Int) - (answers.countP (entryHit questions) : Int),
        unanswered := (questions.length : Int) - (answers.length : Int),
        totalPoints := (questions.map jsPoints).sum,
        percentage :=
          if 0 < (questions.map jsPoints).sum then
            jsRoundDiv (100 * (answers.map (entryPoints questions)).sum)
              ((questions.map jsPoints).sum)
          else 0,
        answers := answers.filterMap (entryFor questions) } := by
  unfold scoreSubmission
  rw [foldl_processAnswer]
  simp

/-- Submitted entries whose question identifier belongs to the quiz. -/
def cleanAnswers (questions : List Question) (answers : List AnswerEntry) : List AnswerEntry :=
  answers.filter (fun a => (questionMap questions a.questionId).isSome)

/-- A question option used in the concrete test fixtures. -/
def demoOption (b : Bool) : QOption := ⟨"option text", b⟩

/-- A one-point question with the given id whose correct option sits at
index c. -/
def demoQuestion (i c : Nat) : Question :=
  ⟨i, (List.range 4).map (fun j => demoOption (j == c)), 1⟩

/-- A quiz with a single one-point question (id 1, correct index 0). -/
def demoQuiz1 : List Question := [demoQuestion 1 0]

/-- A quiz with three one-point questions with ids 1, 2, 3. -/
def demoQuiz3 : List Question := [demoQuestion 1 0, demoQuestion 2 0, demoQuestion 3 0]

/-- C1: evaluation of the scoring code at the failing input. On a
one-question quiz, the submission consisting of the single entry
(questionId 1, selectedOption -1) yields incorrectAnswers = 1 and
unanswered = 0, because the controller derives incorrectAnswers as
answers.length - correctAnswers and unanswered as questions.length -
answers.length; the claim (and the Result schema comment, which calls
-1 unanswered) require incorrectAnswers = 0 and unanswered = 1. -/
theorem C1_minus_one_counted_as_incorrect :
    (scoreSubmission demoQuiz1 [⟨1, -1⟩]).incorrectAnswers = 1 ∧
      (scoreSubmission demoQuiz1 [⟨1, -1⟩]).unanswered = 0 := by
  decide

/-- C2 counterexample: on the three-question quiz with question ids
1, 2, 3, the submission answering question 2 then question 1 produces a
breakdown whose question ids are exactly the submitted ones in
submission order, [2, 1]; the claim requires one entry per quiz
question in quiz order, which would be [1, 2, 3]. -/
theorem C2_counterexample :
    (scoreSubmission demoQuiz3 [⟨2, 0⟩, ⟨1, 0⟩]).answers.map (fun e => e.question) = [2, 1] ∧
      (scoreSubmission demoQuiz3 [⟨2, 0⟩, ⟨1, 0⟩]).answers.map (fun e => e.question) ≠
        [1, 2, 3] := by
  decide

/-- C2 (amended): the per-question breakdown contains exactly one entry
per submitted answer whose question identifier belongs to the quiz, in
submission order; questions never answered get no entry, and a
question submitted several times gets several entries. -/
theorem C2_breakdown_follows_submission_order (questions : List Question)
    (answers : List AnswerEntry) :
    (scoreSubmission questions answers).answers = answers.filterMap (entryFor questions) := by
  rw [scoreSubmission_fields]

/-- C3 counterexample: on the one-question quiz, the submission that
contains only the foreign entry (questionId 99) produces a report with
incorrectAnswers = 1, while the same submission with the foreign entry
removed (the empty submission) produces incorrectAnswers = 0, so the
two reports are not identical. -/
theorem C3_counterexample :
    scoreSubmission demoQuiz1 [⟨99, 0⟩] ≠ scoreSubmission demoQuiz1 [] ∧
      (scoreSubmission demoQuiz1 [⟨99, 0⟩]).incorrectAnswers = 1 ∧
      (scoreSubmission demoQuiz1 []).incorrectAnswers = 0 := by
  decide

/-- C3 (amended): answer entries whose question identifier does not
belong to the quiz are ignored by the scoring proper — score,
correctAnswers, percentage, breakdown, totalPoints and totalQuestions
are identical to the report for the submission with those entries
removed, and no error is raised — but they still count towards the
length of the answers array, so incorrectAnswers is larger and
unanswered smaller by the number of such entries. -/
theorem C3_foreign_entries_skipped_except_counts (questions : List Question)
    (answers : List AnswerEntry) :
    (scoreSubmission questions answers).score =
        (scoreSubmission questions (cleanAnswers questions answers)).score ∧
      (scoreSubmission questions answers).correctAnswers =
        (scoreSubmission questions (cleanAnswers questions answers)).correctAnswers ∧
      (scoreSubmission questions answers).percentage =
        (scoreSubmission questions (cleanAnswers questions answers)).percentage ∧
      (scoreSubmission questions answers).answers =
        (scoreSubmission questions (cleanAnswers questions answers)).answers ∧
      (scoreSubmission questions answers).totalPoints =
        (scoreSubmission questions (cleanAnswers questions answers)).totalPoints ∧
      (scoreSubmission questions answers).totalQuestions =
        (scoreSubmission questions (cleanAnswers questions answers)).totalQuestions ∧
      (scoreSubmission questions answers).incorrectAnswers =
        (scoreSubmission questions (cleanAnswers questions answers)).incorrectAnswers +
          ((answers.length : Int) - ((cleanAnswers questions answers).length : Int)) ∧
      (scoreSubmission questions answers).unanswered =
        (scoreSubmission questions (cleanAnswers questions answers)).unanswered -
          ((answers.length : Int) - ((cleanAnswers questions answers).length : Int)) := by
  have hacc := foldl_processAnswer_filter_matched questions answers ⟨0, 0, []⟩
  unfold scoreSubmission cleanAnswers
  simp only [← hacc]
  refine ⟨trivial, trivial, trivial, trivial, trivial, trivial, ?_, ?_⟩ <;> ring

/-- C4 counterexample: on the one-question quiz (one point, correct
option 0), submitting the correct answer twice yields score = 2, while
the deduplicated submission keeping only the last entry yields
score = 1, so the two reports differ: there is no last-one-wins
deduplication. -/
theorem C4_counterexample :
    scoreSubmission demoQuiz1 [⟨1, 0⟩, ⟨1, 0⟩] ≠ scoreSubmission demoQuiz1 [⟨1, 0⟩] ∧
      (scoreSubmission demoQuiz1 [⟨1, 0⟩, ⟨1, 0⟩]).score = 2 ∧
      (scoreSubmission demoQuiz1 [⟨1, 0⟩]).score = 1 := by
  decide

/-- C4 (amended): every submitted entry is scored independently, with
multiplicity: the score is the sum over the submitted entries of the
points that entry earns on its own, and correctAnswers counts the
submitted entries (not the questions) whose selected option is the
correct one; a question submitted twice is therefore scored twice, and
neither a last-one-wins nor a first-one-wins policy is applied. -/
theorem C4_entries_scored_with_multiplicity (questions : List Question)
    (answers : List AnswerEntry) :
    (scoreSubmission questions answers).score = (answers.map (entryPoints questions)).sum ∧
      (scoreSubmission questions answers).correctAnswers =
        answers.countP (entryHit questions) := by
  rw [scoreSubmission_fields]
  exact ⟨rfl, rfl⟩

/-- C5 counterexample: on the one-question quiz worth one point,
submitting the correct answer twice yields percentage = 200, violating
the claimed upper bound of 100. -/
theorem C5_counterexample :
    (scoreSubmission demoQuiz1 [⟨1, 0⟩, ⟨1, 0⟩]).percentage = 200 ∧
      ¬ (scoreSubmission demoQuiz1 [⟨1, 0⟩, ⟨1, 0⟩]).percentage ≤ 100 := by
  decide

/-- C5 (amended): the computed percentage is a natural number (hence
never below 0), equals 0 when totalPoints = 0 with no division
performed, and is at most 100 provided the submitted entries reference
pairwise distinct question identifiers (without that proviso duplicate
correct answers can push the score beyond totalPoints). -/
theorem C5_percentage_bounds (questions : List Question) (answers : List AnswerEntry)
    (hnodup : (answers.map (fun a => a.questionId)).Nodup) :
    (scoreSubmission questions answers).percentage ≤ 100 ∧
      ((scoreSubmission questions answers).totalPoints = 0 →
        (scoreSubmission questions answers).percentage = 0) := by
  have hs : (answers.map (entryPoints questions)).sum ≤ (questions.map jsPoints).sum :=
    (sum_entryPoints_le_matched questions answers).trans
      (matched_sum_le_totalPoints questions answers hnodup)
  rw [scoreSubmission_fields]
  constructor
  · dsimp only
    split
    · exact jsRoundDiv_le_100 hs (by assumption)
    · omega
  · intro h0
    dsimp only at h0 ⊢
    simp [h0]

/-- C6: the incremental aggregate update of submitQuiz increments the
attempt count and replaces the average by the round-half-up of
(priorAverage * priorAttemptCount + newPercentage) / (priorAttemptCount
+ 1), computed on exact rationals; in particular priorAttemptCount = 2,
priorAverage = 80, newPercentage = 100 gives newAttemptCount = 3 and
newAverage = 87. -/
theorem C6_updateAggregates_matches_formula :
    (∀ priorAttemptCount priorAverage newPercentage : Nat,
        (updateAggregates priorAttemptCount priorAverage newPercentage).1 =
          priorAttemptCount + 1 ∧
        ((updateAggregates priorAttemptCount priorAverage newPercentage).2 : ℤ) =
          specRound (((priorAverage * priorAttemptCount + newPercentage : ℕ) : ℚ) /
            ((priorAttemptCount + 1 : ℕ) : ℚ))) ∧
      updateAggregates 2 80 100 = (3, 87) := by
  refine ⟨fun p a n => ⟨rfl, ?_⟩, by decide⟩
  exact jsRoundDiv_eq_specRound (a * p + n) (p + 1) (by omega)

/-- C7 counterexample: for a quiz whose own pass percentage is 80 and a
single stored result with percentage 70, the code computes passRate =
100 (it compares against the fixed literal 60), while the claimed
threshold rule yields a pass rate of 0. -/
theorem C7_counterexample :
    (getQuizStats [⟨70, 10⟩]).passRate = 100 ∧
      specPassRate (specPassThreshold (some 80)) [70] = 0 := by
  decide

/-- C7 (amended): the full-recompute statistics always use the fixed
passing threshold 60 — the quiz's own pass percentage is never
consulted (getQuizStats does not even load the quiz) — and passRate is
the rounded percentage of attempts whose percentage is at least 60. -/
theorem C7_passRate_uses_fixed_sixty (results : List StoredResult)
    (hne : results ≠ []) :
    (getQuizStats results).passRate =
      specPassRate 60 (results.map (fun r => r.percentage)) := by
  unfold getQuizStats specPassRate
  rw [if_neg (by simpa using hne)]
  have hfilter : ((results.map (fun r => r.percentage)).filter (fun p => 60 ≤ p)) =
      (results.filter (fun r => 60 ≤ r.percentage)).map (fun r => r.percentage) := by
    rw [List.filter_map]
    rfl
  rw [hfilter]
  simp

/-- C7 witness: the amended statement instantiated at a single stored
result with percentage 70. -/
theorem C7_passRate_uses_fixed_sixty_witness :
    (getQuizStats [⟨70, 10⟩]).passRate =
      specPassRate 60 ([(⟨70, 10⟩ : StoredResult)].map (fun r => r.percentage)) :=
  C7_passRate_uses_fixed_sixty [⟨70, 10⟩] (by decide)

/-- C8: a submission against a quiz with an empty question set fails
with the user-visible error Quiz has no questions, and no score report
is produced (the controller returns before scoring and before any
Result is built or saved). -/
theorem C8_empty_quiz_rejected (questions : List Question) (answers : List AnswerEntry)
    (h : questions = []) :
    submitQuiz questions answers = Except.error "Quiz has no questions" := by
  subst h
  rfl

/-- C8 witness: the empty quiz with a nonempty submission. -/
theorem C8_empty_quiz_rejected_witness :
    ([] : List Question) = [] ∧
      submitQuiz ([] : List Question) [⟨1, 0⟩] = Except.error "Quiz has no questions" :=
  ⟨rfl, C8_empty_quiz_rejected [] [⟨1, 0⟩] rfl⟩

/-- C9: the write-time validation hook accepts a question exactly when
its option list has length 4 and exactly one option is flagged
correct; any other shape is invalidated. -/
theorem C9_question_validation_iff (options : List QOption) :
    questionPreValidate options = true ↔
      options.length = 4 ∧ (options.filter (fun o => o.isCorrect)).length = 1 := by
  unfold questionPreValidate
  by_cases h : options.length = 4 <;> simp [h]

/-- C10: for every quiz and submission the stored counts satisfy
incorrectAnswers = answers.length - correctAnswers and unanswered =
questions.length - answers.length, whatever questions the entries
reference; consequently a submission with more entries than the quiz
has questions yields a negative unanswered count. -/
theorem C10_count_identities (questions : List Question) (answers : List AnswerEntry) :
    (scoreSubmission questions answers).incorrectAnswers =
        (answers.length : Int) - ((scoreSubmission questions answers).correctAnswers : Int) ∧
      (scoreSubmission questions answers).unanswered =
        (questions.length : Int) - (answers.length : Int) ∧
      (questions.length < answers.length →
        (scoreSubmission questions answers).unanswered < 0) := by
  rw [scoreSubmission_fields]
  refine ⟨rfl, rfl, fun h => ?_⟩
  dsimp only
  omega

/-- C10 witness: two entries against the one-question quiz give
unanswered = -1. -/
theorem C10_count_identities_witness :
    demoQuiz1.length < ([⟨1, 0⟩, ⟨1, 0⟩] : List AnswerEntry).length ∧
      (scoreSubmission demoQuiz1 [⟨1, 0⟩, ⟨1, 0⟩]).unanswered < 0 :=
  ⟨by decide, (C10_count_identities demoQuiz1 [⟨1, 0⟩, ⟨1, 0⟩]).2.2 (by decide)⟩

/-- C5 witness: the amended bound instantiated on the three-question
quiz with two entries referencing distinct questions. -/
theorem C5_percentage_bounds_witness :
    (([⟨1, 1⟩, ⟨2, 0⟩] : List AnswerEntry).map (fun a => a.questionId)).Nodup ∧
      (scoreSubmission demoQuiz3 [⟨1, 1⟩, ⟨2, 0⟩]).percentage ≤ 100 :=
  ⟨by decide, (C5_percentage_bounds demoQuiz3 [⟨1, 1⟩, ⟨2, 0⟩] (by decide)).1⟩

end QuizApp
